import Mathlib

/-!
# Verification of the meetsync backend core logic

A shallow embedding of the group-consensus state machine and the
geospatial recommendation pipeline of the meetsync backend
(`app/data_accessor.py`, `app/algo.py`, `app/utils.py`).

Modelling conventions:
* The Supabase store is an explicit `DB` state (lists of rows); each
  data-accessor function becomes a pure function `DB → Except PyErr (DB × _)`.
  `Except.error` models a raised Python exception, in which case the caller
  keeps its old `DB` (the store is only changed by the operations the source
  actually executed before raising).
* Row ids are strings for hangouts/users and `Nat` for the DB-assigned
  serial ids of poll options.  The `int`/`str` annotations in the source are
  not enforced by Python and Supabase compares them loosely.
* Python exceptions are the inductive `PyErr`; `UnexpectedError(str(e))`
  is modelled as `PyErr.unexpectedError e` (the source formats the wrapped
  exception into a message string, we keep the wrapped exception itself).
* A Python function that falls off the end returns `none`
  (`Option Resp`), mirroring an implicit `return None`.
* Notification rows are not tracked; `send_notification_bulk` is modelled
  by its control flow (argument validation and its success response),
  which is all the callers observe.
-/

deriving instance DecidableEq for Except

/-- Python exception classes raised by the source
(`app/custom_errors.py` plus the built-in exceptions it can hit). -/
inductive PyErr where
  | invalidUser (msg : String)
  | invalidHangout (msg : String)
  | valueError (msg : String)
  | externalAPIError (msg : String)
  | typeError (msg : String)
  | indexError (msg : String)
  | unboundLocalError (msg : String)
  | unexpectedError (inner : PyErr)
  deriving DecidableEq, Repr

/-- The Python exception class name a caller's `except` clause dispatches on
(`app/main.py` catches by class). -/
def raisedClass : PyErr → String
  | .invalidUser _ => "InvalidUser"
  | .invalidHangout _ => "InvalidHangout"
  | .valueError _ => "ValueError"
  | .externalAPIError _ => "ExternalAPIError"
  | .typeError _ => "TypeError"
  | .indexError _ => "IndexError"
  | .unboundLocalError _ => "UnboundLocalError"
  | .unexpectedError _ => "UnexpectedError"

/-- A `{"status": ..., "message": ...}` response dict. -/
structure Resp where
  status : Nat
  message : String
  deriving DecidableEq, Repr

/-- A row of the `hangouts` table. -/
structure HangoutRow where
  id : String
  creator_id : String
  invitee_ids : List String
  title : String
  status : String
  scheduled_date : Option String := none
  scheduled_start_time : Option String := none
  scheduled_end_time : Option String := none
  scheduled_time : Option String := none
  deriving DecidableEq, Repr

/-- A row of the `hangout_participants` table.  `status` is the invitee
status (`pending` / `accepted` / `declined`), `flowStatus` the per-phase
sub-state (NULL until set).  The location-confirmation columns are NULL
until `submit_time_confirmation` writes them; the runs modelled here only
read them after they were written, so they are kept as plain values. -/
structure ParticipantRow where
  hangout_id : String
  user_id : String
  status : String
  flowStatus : Option String := none
  start_address : String := ""
  transport : String := ""
  travel_time : Int := 0
  deriving DecidableEq, Repr

/-- A row of the `meetup_options` table (one poll option). -/
structure OptionRow where
  id : Nat
  hangout_id : String
  selected_day : String
  start_time : String
  end_time : String
  deriving DecidableEq, Repr

/-- A row of the `meetup_votes` table. -/
structure VoteRow where
  user_id : String
  option_id : Nat
  hangout_id : String
  deriving DecidableEq, Repr

/-- The relational store, restricted to the tables the claims touch. -/
structure DB where
  hangouts : List HangoutRow
  hangout_participants : List ParticipantRow
  meetup_options : List OptionRow
  meetup_votes : List VoteRow
  deriving DecidableEq, Repr

/-- `supabase.table("hangout_participants").update(f)...eq(...)`: applies `f`
to every row matching `pred` and returns the new state together with the
updated rows (`response.data` is the `return=representation` row list). -/
def updateParticipants (db : DB) (pred : ParticipantRow → Bool)
    (f : ParticipantRow → ParticipantRow) : DB × List ParticipantRow :=
  let rows := db.hangout_participants.map (fun p => if pred p then f p else p)
  let touched := (db.hangout_participants.filter pred).map f
  ({ db with hangout_participants := rows }, touched)

/-- `supabase.table("hangouts").update(f)...eq(...)`, as `updateParticipants`. -/
def updateHangouts (db : DB) (pred : HangoutRow → Bool)
    (f : HangoutRow → HangoutRow) : DB × List HangoutRow :=
  let rows := db.hangouts.map (fun h => if pred h then f h else h)
  let touched := (db.hangouts.filter pred).map f
  ({ db with hangouts := rows }, touched)

/-- `supabase.table("meetup_votes").upsert(data)`: rows that conflict with an
incoming row are replaced, the rest are appended.  All columns of a vote row
participate in the conflict key of our model; this keeps at most one row per
(user, option, hangout), which preserves the distinct-voter count the quorum
gate reads (the source relies on the composite key of the live schema for
the same purpose, see the docstring of `vote`). -/
def upsertVotes (votes newRows : List VoteRow) : List VoteRow :=
  votes.filter (fun v => ¬ newRows.contains v) ++ newRows

/-- `utils.send_notification_bulk` (`app/utils.py` lines 54-92): validates the
recipient list, inserts notification rows (not tracked here) and returns a
200 response.  Raises `InvalidUser` on an empty recipient list and
`ValueError` when the sender is among the recipients. -/
def send_notification_bulk (sender : String) (receivers : List String) :
    Except PyErr Resp :=
  if receivers.length = 0 then
    .error (.invalidUser "Receivers cannot be empty")
  else if receivers.contains sender then
    .error (.valueError "The IDs of the users can not be the same.")
  else
    .ok ⟨200, "Succesfully sent notifications."⟩

/-- `data_accessor.check_for_pending` (lines 504-530): if the hangout has no
participant row with invite status `pending`, set the hangout status to
`fetching-availability`. -/
def check_for_pending (db : DB) (hangout_id : String) : Except PyErr DB :=
  if hangout_id = "" then
    .error (.invalidHangout "Hangout ID can not null")
  else
    let pending := db.hangout_participants.filter
      (fun p => p.hangout_id = hangout_id ∧ p.status = "pending")
    if pending.isEmpty then
      .ok (updateHangouts db (fun h => h.id = hangout_id)
        (fun h => { h with status := "fetching-availability" })).1
    else
      .ok db

/-- `data_accessor.respond_to_invite` (lines 472-501).  The source assigns
`flowStaus = None` (note the typo) and only assigns the variable
`flowStatus` under `if status == InviteeStatus.ACCEPTED`; for any other
status, evaluating `{"status": status, "flowStatus": flowStatus}` raises
`UnboundLocalError`, which the `except Exception` clause wraps into
`UnexpectedError`, before any row is touched. -/
def respond_to_invite (db : DB) (hangout_id user_id status : String) :
    Except PyErr (DB × Resp) :=
  if hangout_id = "" then
    .error (.invalidHangout "Hangout ID can not null")
  else if status = "accepted" then
    let (db1, touched) := updateParticipants db
      (fun p => p.hangout_id = hangout_id ∧ p.user_id = user_id)
      (fun p => { p with status := status, flowStatus := some "pending-time-vote" })
    if touched.isEmpty then
      .ok (db1, ⟨404, "Hangout invite not found."⟩)
    else
      match check_for_pending db1 hangout_id with
      | .error e => .error (.unexpectedError e)
      | .ok db2 => .ok (db2, ⟨200, "Succesfully updated the invite."⟩)
  else
    .error (.unexpectedError
      (.unboundLocalError "local variable flowStatus referenced before assignment"))

/-- `data_accessor.check_all_submitted` (lines 1283-1313): compares the number
of accepted participant rows of the hangout with the number of participant
rows carrying `flowStatus`; an empty list on either side is falsy, so the
function returns `False` without comparing lengths. -/
def check_all_submitted (db : DB) (hangout_id flowStatus : String) : Bool :=
  let hangout_participants := db.hangout_participants.filter
    (fun p => p.hangout_id = hangout_id ∧ p.status = "accepted")
  let participants_submitted := db.hangout_participants.filter
    (fun p => p.hangout_id = hangout_id ∧ p.flowStatus = some flowStatus)
  if ¬ hangout_participants.isEmpty ∧ ¬ participants_submitted.isEmpty then
    hangout_participants.length = participants_submitted.length
  else
    false

/-- Split a character list at every occurrence of `sep`; like Python's
`str.split`, the empty input yields one empty field. -/
def splitChars (sep : Char) : List Char → List (List Char)
  | [] => [[]]
  | c :: cs =>
    match splitChars sep cs with
    | [] => if c = sep then [[], []] else [[c]]
    | r :: rs => if c = sep then [] :: r :: rs else (c :: r) :: rs

/-- Python `option.split(",")`. -/
def splitOnComma (s : String) : List String :=
  (splitChars ',' s.data).map (fun cs => String.mk cs)

/-- `option.split(",")` with unpacking `day, start_time, end_time = ...`:
succeeds only when the string has exactly three comma-separated fields,
otherwise Python raises a `ValueError` ("not enough values to unpack"). -/
def parseOption (o : String) : Option (String × String × String) :=
  match splitOnComma o with
  | [d, s, e] => some (d, s, e)
  | _ => none

/-- The body of the `for option in unique_options` loop of `create_poll`:
split every option, failing on the first malformed one. -/
def parseOptions : List String → Option (List (String × String × String))
  | [] => some []
  | o :: os => do
    let p ← parseOption o
    let ps ← parseOptions os
    pure (p :: ps)

/-- `data_accessor.get_hangout` (lines 911-938), restricted to the row lookup:
`maybe_single()` yields the first row with the id, or `None`. -/
def get_hangout (db : DB) (hangout_id : String) : Option HangoutRow :=
  (db.hangouts.filter (fun h => h.id = hangout_id)).head?

/-- `data_accessor.create_poll` (lines 601-687).  `set(options)` is modelled
by `List.dedup` (the claims only depend on the number of distinct options,
not on Python's set iteration order).  Fresh serial ids for the inserted
option rows are modelled as consecutive integers above the current table
size.  A fall-through (empty insert, so `response.data` is falsy) returns
`none`, i.e. Python `None`. -/
def create_poll (db : DB) (hangout_id : String) (options : List String) :
    Except PyErr (DB × Option Resp) :=
  let unique_options := options.dedup
  if 5 < unique_options.length then
    .error (.valueError "Options exceeds limit. You can only pass in 5 options")
  else if hangout_id = "" then
    .error (.invalidHangout "Hangout ID can not null")
  else
    match parseOptions unique_options with
    | none => .error (.unexpectedError (.valueError "not enough values to unpack"))
    | some parsed =>
      let check := db.meetup_options.filter (fun o => o.hangout_id = hangout_id)
      if ¬ check.isEmpty then
        .ok (db, some ⟨500, "Unable to create poll. A poll for the hangout already exist."⟩)
      else
        let newRows := parsed.enum.map (fun pr =>
          OptionRow.mk (db.meetup_options.length + pr.1 + 1) hangout_id
            pr.2.1 pr.2.2.1 pr.2.2.2)
        let db1 := { db with meetup_options := db.meetup_options ++ newRows }
        if newRows.isEmpty then
          .ok (db1, none)
        else
          match get_hangout db1 hangout_id with
          | none => .error (.unexpectedError (.typeError "NoneType object is not subscriptable"))
          | some hangout_info =>
            match send_notification_bulk hangout_info.creator_id hangout_info.invitee_ids with
            | .error e => .error (.unexpectedError e)
            | .ok _ =>
              let (db2, touched) := updateParticipants db1
                (fun p => p.user_id = hangout_info.creator_id ∧ p.hangout_id = hangout_id)
                (fun p => { p with flowStatus := some "submitted-time-input" })
              if touched.isEmpty then
                .ok (db2, some ⟨500, "Succesfully created poll and sent notifications but unable to update your status."⟩)
              else
                .ok (db2, some ⟨200, "Succesfully created poll and added your options."⟩)

/-- Modelled from the spec: the `get_vote_winner` database view, which is not
part of `src/` (the source only calls it through `supabase.rpc`).  Per the
spec: "among TimeOptions for a hangout, the option with the most votes wins;
ties broken by an implementation-defined stable rule"; we take the first
option in table order among ties.  An empty option set yields no row. -/
def get_vote_winner (db : DB) (hangout_id : String) : List OptionRow :=
  let opts := db.meetup_options.filter (fun o => o.hangout_id = hangout_id)
  let votesFor := fun (o : OptionRow) =>
    (db.meetup_votes.filter (fun v => v.option_id = o.id ∧ v.hangout_id = hangout_id)).length
  match opts with
  | [] => []
  | o :: rest => [rest.foldl (fun best c => if votesFor best < votesFor c then c else best) o]

/-- `data_accessor.set_scheduled_time` (lines 837-888): reads the winner view,
writes the winning slot and `confirm-time` status onto the hangout row, moves
every participant of the hangout to `pending-confirm-time`, notifies the
invitees, and reports whether exactly one hangout row was updated.
`winning_time_repsponse.data[0]` raises `IndexError` when the view is empty. -/
def set_scheduled_time (db : DB) (hangout_id : String) (invitees : List String)
    (creator_id title : String) : Except PyErr (DB × Bool) :=
  match get_vote_winner db hangout_id with
  | [] => .error (.indexError "list index out of range")
  | w :: _ =>
    let (db1, touchedH) := updateHangouts db (fun h => h.id = hangout_id)
      (fun h => { h with
        scheduled_date := some w.selected_day,
        scheduled_start_time := some w.start_time,
        scheduled_end_time := some w.end_time,
        scheduled_time := some (w.selected_day ++ " " ++ w.start_time),
        status := "confirm-time" })
    let (db2, _) := updateParticipants db1 (fun p => p.hangout_id = hangout_id)
      (fun p => { p with flowStatus := some "pending-confirm-time" })
    let _ := title
    match send_notification_bulk creator_id invitees with
    | .error e => .error e
    | .ok _ => .ok (db2, touchedH.length = 1)

/-- `data_accessor.check_if_vote_is_concluded` (lines 891-908):
`hangout.data[0]` raises `IndexError` when the hangout row is missing,
otherwise the poll is concluded iff `scheduled_time` is non-NULL. -/
def check_if_vote_is_concluded (db : DB) (hangout_id : String) :
    Except PyErr Bool :=
  match db.hangouts.filter (fun h => h.id = hangout_id) with
  | [] => .error (.indexError "list index out of range")
  | h :: _ => .ok (h.scheduled_time ≠ none)

/-- `data_accessor.vote` (lines 729-834).  Faithful points worth noting:
* the invalid-option guard of the source iterates over `flattened_options`
  (the poll's own option ids) instead of the submitted `option_ids`, so its
  condition `option_id not in flattened_options` is tested only on members
  of `flattened_options`; we keep that loop as written;
* the quorum gate compares the number of distinct voters with
  `len(invitees)` where `invitees = hangout["invitee_ids"]`, the invitee
  list stored on the hangout row (which excludes the creator and ignores
  accept/decline), not the accepted-participant count;
* every exception inside the `try` block is wrapped into `UnexpectedError`. -/
def vote (db : DB) (hangout_id : String) (option_ids : List Nat) (user_id : String) :
    Except PyErr (DB × Option Resp) :=
  if hangout_id = "" then
    .error (.invalidHangout "Hangout ID can not null")
  else if user_id = "" then
    .error (.invalidUser "User ID cannot be null")
  else if option_ids.isEmpty then
    .error (.valueError "Options cannot be empty")
  else
    match check_if_vote_is_concluded db hangout_id with
    | .error e => .error (.unexpectedError e)
    | .ok true =>
      .ok (db, some ⟨500, "No longer accepting votes for hangout. Poll is concluded."⟩)
    | .ok false =>
      let data := option_ids.map (fun oid => VoteRow.mk user_id oid hangout_id)
      let flattened_options :=
        (db.meetup_options.filter (fun o => o.hangout_id = hangout_id)).map (fun o => o.id)
      if flattened_options.any (fun oid => ¬ flattened_options.contains oid) then
        .ok (db, some ⟨500, "Invalid voting option"⟩)
      else
        let db1 := { db with meetup_votes := upsertVotes db.meetup_votes data }
        let (db2, touched) := updateParticipants db1
          (fun p => p.user_id = user_id ∧ p.hangout_id = hangout_id)
          (fun p => { p with flowStatus := some "submitted-time-vote" })
        if touched.isEmpty then
          .ok (db2, some ⟨500, "Successfully added vote but unable to update your status."⟩)
        else
          match get_hangout db2 hangout_id with
          | none => .error (.unexpectedError (.typeError "NoneType object is not subscriptable"))
          | some hangout =>
            let invitees := hangout.invitee_ids
            let flattend_user_votes :=
              (db2.meetup_votes.filter (fun v => v.hangout_id = hangout_id)).map
                (fun v => v.user_id)
            let unique_users := flattend_user_votes.dedup
            if unique_users.length = invitees.length then
              match set_scheduled_time db2 hangout_id invitees hangout.creator_id hangout.title with
              | .error e => .error (.unexpectedError e)
              | .ok (db3, success) =>
                if ¬ success then
                  .ok (db3, some ⟨500, "Successfully added vote. We tried to conclude the vote since you are the final memeber to vote but there was an error while updating the hangout."⟩)
                else
                  .ok (db3, some ⟨200, "Succesfully added your vote"⟩)
            else
              .ok (db2, some ⟨200, "Succesfully added your vote"⟩)

/-! ## Geometry (app/algo.py)

Coordinates are rationals.  Distances are represented by their squares
(`distSq`): `shapely`'s Euclidean `center.distance(Point(p))` is
`√(distSq center p)`, and since `√` is strictly monotone on nonnegative
reals, every comparison of distances is stated through `Real.sqrt` of the
squared values, keeping all definitions computable. -/

/-- A lon/lat coordinate. -/
abbrev QPoint := ℚ × ℚ

/-- Squared Euclidean distance between two points (in degrees²). -/
def distSq (a b : QPoint) : ℚ :=
  (a.1 - b.1) ^ 2 + (a.2 - b.2) ^ 2

/-- A shapely `Polygon`, kept as its exterior ring coordinate list
(`polygon.exterior.coords`, a closed ring: last point repeats the first).
The claims under verification never exercise interior rings (holes), and
`getEnclosingCircle` only reads the exterior ring. -/
structure SPolygon where
  exterior : List QPoint
  deriving DecidableEq, Repr

/-- A shapely geometry: a `Polygon` or a `MultiPolygon`. -/
inductive SGeometry where
  | polygon (p : SPolygon)
  | multiPolygon (geoms : List SPolygon)
  deriving DecidableEq, Repr

/-- Twice the signed shoelace area of a closed ring. -/
def shoelace2 : List QPoint → ℚ
  | a :: b :: rest => (a.1 * b.2 - b.1 * a.2) + shoelace2 (b :: rest)
  | _ => 0

/-- `shapely` `polygon.area`: absolute shoelace area of the exterior ring
(the polygons in scope here have no holes). -/
def polyArea (p : SPolygon) : ℚ :=
  |shoelace2 p.exterior| / 2

/-- `shapely` `polygon.centroid` for a hole-free polygon: the standard
area-weighted ring centroid.  (Rational division is total in Lean; a
degenerate zero-area ring would get centroid `(0, 0)` where shapely
produces NaN — no claim touches that case.) -/
def polyCentroid (p : SPolygon) : QPoint :=
  let a2 := shoelace2 p.exterior
  let cx := centroidSum (fun q r => (q.1 + r.1) * (q.1 * r.2 - r.1 * q.2)) p.exterior
  let cy := centroidSum (fun q r => (q.2 + r.2) * (q.1 * r.2 - r.1 * q.2)) p.exterior
  (cx / (3 * a2), cy / (3 * a2))
where
  centroidSum (f : QPoint → QPoint → ℚ) : List QPoint → ℚ
    | a :: b :: rest => f a b + centroidSum f (b :: rest)
    | _ => 0

/-- `max(polygon.geoms, key=lambda p: p.area)`: Python's `max` keeps the
first element among ties and raises on an empty sequence (`none` here). -/
def largestGeom : List SPolygon → Option SPolygon
  | [] => none
  | p :: rest =>
    some (rest.foldl (fun best c => if polyArea best < polyArea c then c else best) p)

/-- The polygon `getEnclosingCircle` actually measures: the input itself for
a `Polygon`, the largest-area sub-polygon for a `MultiPolygon`. -/
def representativePolygon : SGeometry → Option SPolygon
  | .polygon p => some p
  | .multiPolygon gs => largestGeom gs

/-- Every exterior vertex of the source geometry (what the claim's phrase
"every vertex of the source polygon" quantifies over). -/
def geometryVertices : SGeometry → List QPoint
  | .polygon p => p.exterior
  | .multiPolygon gs => gs.flatMap (fun p => p.exterior)

/-- `max(center.distance(Point(p)) for p in polygon.exterior.coords)`,
squared: the largest squared distance from `center` to a vertex.
(Python's `max` raises on an empty ring; the enclosing-circle theorems
carry the nonemptiness the source presupposes, and on nonempty rings the
`0`-seeded fold equals the maximum since squared distances are ≥ 0.) -/
def maxDistSq (center : QPoint) (ring : List QPoint) : ℚ :=
  (ring.map (fun v => distSq center v)).foldr max 0

/-- `algo.getEnclosingCircle` (lines 78-91), in squared form: returns the
centroid of the representative polygon and the squared maximal
centroid-to-vertex distance in degrees².  The source's radius in meters is
`111320 * √(squared distance)`; theorems state it through `Real.sqrt`.
`none` models the `ValueError` Python's `max` raises on an empty
`MultiPolygon` or an empty coordinate ring. -/
def getEnclosingCircle (g : SGeometry) : Option (QPoint × ℚ) :=
  match representativePolygon g with
  | none => none
  | some p =>
    if p.exterior.isEmpty then none
    else
      let center := polyCentroid p
      some (center, maxDistSq center p.exterior)

/-- `algo.getOverlap` (lines 139-151), generic in the geometry type and its
intersection operation: `None` on an empty list, else the left fold of
pairwise intersection starting from the first polygon. -/
def getOverlap {G : Type*} (intersection : G → G → G) :
    List G → Option G
  | [] => none
  | p :: rest => some (rest.foldl intersection p)

/-- A geometric region modelled by its set of points; shapely's
`.intersection` is then set intersection, and equality of regions is
equality of point sets (the sense in which the spec calls intersection
order-independent). -/
abbrev Region := Set QPoint

/-- `getOverlap` instantiated at point-set regions. -/
def getOverlapRegion (polygons : List Region) : Option Region :=
  getOverlap (fun a b => a ∩ b) polygons

/-! ## Recommendation pipeline (app/algo.py)

The three external geospatial services are oracles supplied by an
`AlgoEnv`; every embedded pipeline function returns its result together
with the list of external HTTP calls it issued, so that "before any
external call" claims are statements about that trace. -/

/-- One outbound HTTP request to an external geospatial service. -/
inductive ExtCall where
  | geocoderCall
  | isochroneCall
  | venueCall
  deriving DecidableEq, Repr

/-- The Mapbox batch-geocoding response: a top-level error, or one entry per
query whose `features` list is empty (`none`) or carries a coordinate. -/
inductive GeoResp where
  | apiError (msg : String)
  | batch (features : List (Option QPoint))
  deriving DecidableEq, Repr

/-- The TravelTime response: a top-level error (`results` missing) or one
parsed multipolygon per search, abstract in the geometry type. -/
inductive IsoResp (G : Type) where
  | apiError (msg : String)
  | results (shapes : List G)
  deriving DecidableEq, Repr

/-- The shapely operations the pipeline applies to the oracle-produced
geometries (`intersection`, `is_empty`, `getEnclosingCircle`); abstract
because the pipeline claims do not depend on their values. -/
structure GeomOps (G : Type) where
  inter : G → G → G
  isEmpty : G → Bool
  enclosing : G → QPoint × ℚ

/-- The environment of a recommendation run: the store plus the external
services (black boxes per the spec). -/
structure AlgoEnv (G : Type) where
  db : DB
  geocode : List String → GeoResp
  isochrone : List QPoint → List Int → List String → IsoResp G
  ops : GeomOps G

/-- The `for i in range(len(data["batch"]))` loop of `getGeocodes`: the first
entry with no features raises `ValueError(f"{addresses[i]} did not map to a
geocode")`, otherwise the coordinates are collected in order. -/
def extractGeocodes : List String → List (Option QPoint) →
    Except PyErr (List QPoint)
  | _, [] => .ok []
  | addrs, f :: fs =>
    match f with
    | none => .error (.valueError ((addrs.headD "") ++ " did not map to a geocode"))
    | some pt =>
      match extractGeocodes addrs.tail fs with
      | .error e => .error e
      | .ok pts => .ok (pt :: pts)

/-- `algo.getGeocodes` (lines 154-188): rejects an empty address list before
calling Mapbox, then issues the batch request and fails on a top-level API
error or on any address without a match. -/
def getGeocodes {G : Type} (env : AlgoEnv G) (addresses : List String) :
    Except PyErr (List QPoint) × List ExtCall :=
  if addresses.length = 0 then
    (.error (.valueError "Addresses array can not be empty"), [])
  else
    match env.geocode addresses with
    | .apiError m => (.error (.externalAPIError m), [.geocoderCall])
    | .batch feats => (extractGeocodes addresses feats, [.geocoderCall])

/-- `algo.getIsochrones` (lines 11-75): checks the three input lists have
equal length, then builds the searches — raising `ValueError` on the first
travel time above 180 minutes, before any request is sent — and only then
posts to the TravelTime API. -/
def getIsochrones {G : Type} (env : AlgoEnv G) (startPoints : List QPoint)
    (times : List Int) (transportModes : List String) :
    Except PyErr (List G) × List ExtCall :=
  let n := startPoints.length
  if times.length ≠ n ∨ transportModes.length ≠ n then
    (.error (.valueError "All input lists must have the same length"), [])
  else if times.any (fun t => 180 < t) then
    (.error (.valueError "Travel time must be less than 3 hours (180 minutes)"), [])
  else
    match env.isochrone startPoints times transportModes with
    | .apiError m => (.error (.externalAPIError m), [.isochroneCall])
    | .results gs => (.ok gs, [.isochroneCall])

/-- `algo.getPlaces` (lines 94-136): posts to the Places API, then evaluates
`data.status_code` — but `data` is the parsed JSON dict, which has no
`status_code` attribute, so the `try` body always raises `AttributeError`,
wrapped by `except Exception` into `ExternalAPIError`.  The function
therefore always fails, after having issued the venue call. -/
def getPlaces {G : Type} (_polygon : G) (_center : QPoint) (_radius : ℚ) :
    Except PyErr (List String) × List ExtCall :=
  (.error (.externalAPIError "dict object has no attribute status_code"), [.venueCall])

/-- The successful payload of `getRecommendations`. -/
structure RecoResp where
  status : Nat
  places : List String
  deriving DecidableEq, Repr

/-- `algo.getAlgoInputs` (lines 191-209): reads the accepted participants of
the hangout (`get_hangout_participants` filters on `status = "accepted"`)
and splits out their addresses, travel times and transport modes. -/
def getAlgoInputs (db : DB) (hangout_id : String) :
    List String × List Int × List String :=
  let participants := db.hangout_participants.filter
    (fun p => p.hangout_id = hangout_id ∧ p.status = "accepted")
  (participants.map (fun p => p.start_address),
   participants.map (fun p => p.travel_time),
   participants.map (fun p => p.transport))

/-- `algo.getRecommendations` (lines 212-262).  The null-id check raises
`InvalidHangout` before the `try` block; every exception raised inside the
`try` block — including the invalid-status `ValueError` — is wrapped by
`except Exception` into `UnexpectedError`. -/
def getRecommendations {G : Type} (env : AlgoEnv G) (hangout_id : String) :
    Except PyErr RecoResp × List ExtCall :=
  if hangout_id = "" then
    (.error (.invalidHangout "Hangout ID can not null"), [])
  else
    match get_hangout env.db hangout_id with
    | none => (.error (.unexpectedError (.typeError "NoneType object is not subscriptable")), [])
    | some hangout =>
      if hangout.status ≠ "determining-location" then
        (.error (.unexpectedError (.valueError
          ("Hangout status must be determining-location not " ++ hangout.status))), [])
      else
        let (startAddresses, travelTimes, transportModes) := getAlgoInputs env.db hangout_id
        if startAddresses.length ≠ travelTimes.length ∨
            startAddresses.length ≠ transportModes.length then
          (.error (.unexpectedError (.valueError
            "Lengths of startAddresses, travelTimes, and transportModes must be equal")), [])
        else
          match getGeocodes env startAddresses with
          | (.error e, tr1) => (.error (.unexpectedError e), tr1)
          | (.ok startPoints, tr1) =>
            match getIsochrones env startPoints travelTimes transportModes with
            | (.error e, tr2) => (.error (.unexpectedError e), tr1 ++ tr2)
            | (.ok isochrones, tr2) =>
              match getOverlap env.ops.inter isochrones with
              | none =>
                (.error (.unexpectedError (.valueError "No overlap between isochrones")), tr1 ++ tr2)
              | some overlap =>
                if env.ops.isEmpty overlap then
                  (.error (.unexpectedError (.valueError "No overlap between isochrones")), tr1 ++ tr2)
                else
                  let cr := env.ops.enclosing overlap
                  match getPlaces overlap cr.1 cr.2 with
                  | (.error e, tr3) => (.error (.unexpectedError e), tr1 ++ tr2 ++ tr3)
                  | (.ok places, tr3) =>
                    if places.length = 0 then
                      (.error (.unexpectedError (.valueError "No places found within overlap")), tr1 ++ tr2 ++ tr3)
                    else
                      (.ok ⟨200, places⟩, tr1 ++ tr2 ++ tr3)

/-! ## Observables used by the claims -/

/-- Number of active (invite-accepted) participants of a hangout — the
population the spec's quorum gate is supposed to count. -/
def activeParticipantCount (db : DB) (hangout_id : String) : Nat :=
  (db.hangout_participants.filter
    (fun p => p.hangout_id = hangout_id ∧ p.status = "accepted")).length

/-- Number of distinct users with at least one vote row on the hangout's
poll — the other side of the spec's completion test. -/
def distinctVoterCount (db : DB) (hangout_id : String) : Nat :=
  ((db.meetup_votes.filter (fun v => v.hangout_id = hangout_id)).map
    (fun v => v.user_id)).dedup.length

/-- The lifecycle status of a hangout, if the row exists. -/
def hangoutStatus (db : DB) (hangout_id : String) : Option String :=
  (get_hangout db hangout_id).map (fun h => h.status)

/-! ## Fixtures -/

/-- C1 fixture: creator `c` plus one invitee `u1`, both accepted, so the
hangout has two active participants; `invitee_ids` (which the code's gate
counts) has length one. -/
def hangoutC1 : HangoutRow :=
  { id := "h1", creator_id := "c", invitee_ids := ["u1"], title := "Lunch",
    status := "fetching-availability" }

/-- C1 fixture store: poll with a single option, no votes yet. -/
def dbC1 : DB :=
  { hangouts := [hangoutC1],
    hangout_participants :=
      [{ hangout_id := "h1", user_id := "c", status := "accepted",
         flowStatus := some "submitted-time-input" },
       { hangout_id := "h1", user_id := "u1", status := "accepted",
         flowStatus := some "pending-time-vote" }],
    meetup_options := [⟨1, "h1", "mon", "10", "12"⟩],
    meetup_votes := [] }

/-- The store after `u1`'s first vote on `dbC1`: the gate fired (the code
counted one distinct voter against the one-element `invitee_ids`), so the
winner is resolved and the hangout moved to `confirm-time`, although the
creator — an active participant — never voted. -/
def dbC1After : DB :=
  { hangouts :=
      [{ hangoutC1 with
          scheduled_date := some "mon", scheduled_start_time := some "10",
          scheduled_end_time := some "12", scheduled_time := some "mon 10",
          status := "confirm-time" }],
    hangout_participants :=
      [{ hangout_id := "h1", user_id := "c", status := "accepted",
         flowStatus := some "pending-confirm-time" },
       { hangout_id := "h1", user_id := "u1", status := "accepted",
         flowStatus := some "pending-confirm-time" }],
    meetup_options := [⟨1, "h1", "mon", "10", "12"⟩],
    meetup_votes := [⟨"u1", 1, "h1"⟩] }

/-- C1: the spec's quorum gate — resolve the winner and move to
`confirm-time` exactly when the count of distinct voters reaches the count
of active participants — does not hold of `vote`: the code compares the
distinct-voter count with `len(hangout["invitee_ids"])` instead.  On
`dbC1` (two active participants, one-element invitee list) the first vote
already resolves the poll: the hangout reaches `confirm-time` with one
distinct voter and two active participants. -/
theorem vote_quorum_gate_fires_early :
  vote dbC1 "h1" [1] "u1" =
      .ok (dbC1After, some ⟨200, "Succesfully added your vote"⟩) ∧
    hangoutStatus dbC1After "h1" = some "confirm-time" ∧
    activeParticipantCount dbC1 "h1" = 2 ∧
    distinctVoterCount dbC1After "h1" = 1 := by
  refine ⟨?_, by decide, by decide, by decide⟩
  decide

/-- C2 fixture: two invitees; `u2` already accepted, `u1` is the last one
still pending. -/
def dbC2 : DB :=
  { hangouts :=
      [{ id := "h1", creator_id := "c", invitee_ids := ["u1", "u2"],
         title := "Picnic", status := "invites_sent" }],
    hangout_participants :=
      [{ hangout_id := "h1", user_id := "c", status := "accepted",
         flowStatus := some "pending-time-input" },
       { hangout_id := "h1", user_id := "u2", status := "accepted",
         flowStatus := some "pending-time-vote" },
       { hangout_id := "h1", user_id := "u1", status := "pending" }],
    meetup_options := [], meetup_votes := [] }

/-- The store after the last pending invitee `u1` accepts on `dbC2`. -/
def dbC2Accept : DB :=
  { dbC2 with
    hangouts :=
      [{ id := "h1", creator_id := "c", invitee_ids := ["u1", "u2"],
         title := "Picnic", status := "fetching-availability" }],
    hangout_participants :=
      [{ hangout_id := "h1", user_id := "c", status := "accepted",
         flowStatus := some "pending-time-input" },
       { hangout_id := "h1", user_id := "u2", status := "accepted",
         flowStatus := some "pending-time-vote" },
       { hangout_id := "h1", user_id := "u1", status := "accepted",
         flowStatus := some "pending-time-vote" }] }

/-- C2: when the last pending invitee responds, the hangout is supposed to
move to `fetching-availability` whether the response is accept or decline.
The accept path does exactly that, but the decline path never gets to the
update: the source misspells the assignment `flowStaus = None`, so for any
non-accepted status the variable `flowStatus` is unbound and the call
raises `UnexpectedError` (wrapping `UnboundLocalError`) with the store
untouched — the hangout stays `invites_sent`. -/
theorem respond_to_invite_decline_crashes :
  respond_to_invite dbC2 "h1" "u1" "declined" =
      .error (.unexpectedError
        (.unboundLocalError "local variable flowStatus referenced before assignment")) ∧
    respond_to_invite dbC2 "h1" "u1" "accepted" =
      .ok (dbC2Accept, ⟨200, "Succesfully updated the invite."⟩) ∧
    hangoutStatus dbC2Accept "h1" = some "fetching-availability" := by
  refine ⟨by decide, ?_, by decide⟩
  decide

/-- C4 fixture: a poll whose only option id is `1`; two invitees so the
quorum branch stays quiet. -/
def dbC4 : DB :=
  { hangouts :=
      [{ id := "h1", creator_id := "c", invitee_ids := ["u1", "u2"],
         title := "Dinner", status := "fetching-availability" }],
    hangout_participants :=
      [{ hangout_id := "h1", user_id := "c", status := "accepted",
         flowStatus := some "submitted-time-input" },
       { hangout_id := "h1", user_id := "u1", status := "accepted",
         flowStatus := some "pending-time-vote" },
       { hangout_id := "h1", user_id := "u2", status := "accepted",
         flowStatus := some "pending-time-vote" }],
    meetup_options := [⟨1, "h1", "mon", "10", "12"⟩],
    meetup_votes := [] }

/-- The store after `u1` votes for the non-existent option `99` on `dbC4`:
the bogus vote row is persisted. -/
def dbC4After : DB :=
  { dbC4 with
    hangout_participants :=
      [{ hangout_id := "h1", user_id := "c", status := "accepted",
         flowStatus := some "submitted-time-input" },
       { hangout_id := "h1", user_id := "u1", status := "accepted",
         flowStatus := some "submitted-time-vote" },
       { hangout_id := "h1", user_id := "u2", status := "accepted",
         flowStatus := some "pending-time-vote" }],
    meetup_votes := [⟨"u1", 99, "h1"⟩] }

/-- C4: a vote naming an option id that does not belong to the hangout's
poll is supposed to be rejected with no vote row stored.  The source's
guard iterates over `flattened_options` (the poll's own ids) instead of the
submitted `option_ids`, so it can never fire: voting for the non-existent
option `99` succeeds with a 200 response and the row
`("u1", 99, "h1")` is persisted in `meetup_votes`. -/
theorem vote_stores_nonexistent_option :
  ((dbC4.meetup_options.filter (fun o => o.hangout_id = "h1")).map
      (fun o => o.id)) = [1] ∧
    vote dbC4 "h1" [99] "u1" =
      .ok (dbC4After, some ⟨200, "Succesfully added your vote"⟩) ∧
    VoteRow.mk "u1" 99 "h1" ∈ dbC4After.meetup_votes := by
  refine ⟨by decide, ?_, by decide⟩
  decide

/-- C10: `check_all_submitted` returns `False` whenever the hangout has no
accepted participant row or no participant row carrying the queried
`flowStatus`: either empty query result is falsy, so the source returns
`False` before comparing the two lengths.  In particular the gate never
fires for a hangout with zero accepted participants. -/
theorem check_all_submitted_false_without_population (db : DB) (h fs : String)
    (hyp : db.hangout_participants.filter
        (fun p => p.hangout_id = h ∧ p.status = "accepted") = [] ∨
      db.hangout_participants.filter
        (fun p => p.hangout_id = h ∧ p.flowStatus = some fs) = []) :
    check_all_submitted db h fs = false := by
  rcases hyp with hyp | hyp <;> simp only [check_all_submitted, hyp] <;> simp

/-- C10 fixture: one hangout whose only participant is still `pending`. -/
def dbC10 : DB :=
  { hangouts :=
      [{ id := "h1", creator_id := "c", invitee_ids := ["u1"],
         title := "Brunch", status := "invites_sent" }],
    hangout_participants :=
      [{ hangout_id := "h1", user_id := "u1", status := "pending" }],
    meetup_options := [], meetup_votes := [] }

/-- Witness for C10 at `dbC10`: no accepted participants, so the gate
reports `false`. -/
theorem check_all_submitted_false_without_population_witness :
  dbC10.hangout_participants.filter
      (fun p => p.hangout_id = "h1" ∧ p.status = "accepted") = [] ∧
    check_all_submitted dbC10 "h1" "submitted-confirm-time" = false :=
  ⟨by decide,
    check_all_submitted_false_without_population dbC10 "h1" "submitted-confirm-time"
      (Or.inl (by decide))⟩

/-- A call outcome counts as rejected when it raises, or when it returns an
error-status response; a 200 response or a bare Python `None` is not a
rejection. -/
def rejects (r : Except PyErr (DB × Option Resp)) : Prop :=
  (∃ e, r = .error e) ∨ ∃ db resp, r = .ok (db, some resp) ∧ resp.status ≠ 200

/-- Fixture shared by the poll-creation claims: a hangout with creator `c`
and invitee `u1`, no poll yet. -/
def pollDB : DB :=
  { hangouts :=
      [{ id := "h1", creator_id := "c", invitee_ids := ["u1"],
         title := "Hike", status := "fetching-availability" }],
    hangout_participants :=
      [{ hangout_id := "h1", user_id := "c", status := "accepted",
         flowStatus := some "pending-time-input" },
       { hangout_id := "h1", user_id := "u1", status := "accepted",
         flowStatus := some "pending-time-vote" }],
    meetup_options := [], meetup_votes := [] }

/-- C5 (amended): `create_poll` with an empty options list inserts no option
rows, but it is not rejected either: the 5-option cap passes vacuously, the
empty insert returns falsy `response.data`, and the function falls off the
end of the `try` block returning Python `None`, with the store unchanged. -/
theorem create_poll_empty_options_noop (db : DB) (hangout_id : String)
    (hne : hangout_id ≠ "")
    (hnopoll : db.meetup_options.filter (fun o => o.hangout_id = hangout_id) = []) :
    create_poll db hangout_id [] = .ok (db, none) := by
  simp [create_poll, hne, hnopoll, parseOptions]

/-- Witness for C5's amended statement at the concrete `pollDB`. -/
theorem create_poll_empty_options_noop_witness :
  (("h1" : String) ≠ "") ∧
    pollDB.meetup_options.filter (fun o => o.hangout_id = "h1") = [] ∧
    create_poll pollDB "h1" [] = .ok (pollDB, none) :=
  ⟨by decide, by decide,
    create_poll_empty_options_noop pollDB "h1" (by decide) (by decide)⟩

/-- C5 counterexample: on `pollDB`, creating a poll with an empty options
list yields `.ok (pollDB, none)` — no exception and no error-status
response — so the claim's "is rejected" fails (its "no option rows are
inserted" half does hold: the store is returned unchanged). -/
theorem create_poll_empty_options_not_rejected :
  create_poll pollDB "h1" [] = .ok (pollDB, none) ∧
    ¬ rejects (create_poll pollDB "h1" []) := by
  have h : create_poll pollDB "h1" [] = .ok (pollDB, none) := by decide
  refine ⟨h, ?_⟩
  rw [rejects, h]
  rintro (⟨e, he⟩ | ⟨d, resp, hr, _⟩)
  · exact Except.noConfusion he
  · simp at hr

/-- Six option strings with one duplicate: five distinct values, which the
source's `set(options)` collapses before counting. -/
def sixOptionsWithDup : List String :=
  ["mon,8,9", "tue,8,9", "wed,8,9", "thu,8,9", "fri,8,9", "mon,8,9"]

/-- Six pairwise-distinct option strings. -/
def sixDistinctOptions : List String :=
  ["mon,8,9", "tue,8,9", "wed,8,9", "thu,8,9", "fri,8,9", "sat,8,9"]

/-- The store after `create_poll pollDB "h1" sixOptionsWithDup`: the five
distinct options inserted (set order of the model), and the creator's
flow status advanced to `submitted-time-input`. -/
def pollDBAfter : DB :=
  { pollDB with
    hangout_participants :=
      [{ hangout_id := "h1", user_id := "c", status := "accepted",
         flowStatus := some "submitted-time-input" },
       { hangout_id := "h1", user_id := "u1", status := "accepted",
         flowStatus := some "pending-time-vote" }],
    meetup_options :=
      [⟨1, "h1", "tue", "8", "9"⟩, ⟨2, "h1", "wed", "8", "9"⟩,
       ⟨3, "h1", "thu", "8", "9"⟩, ⟨4, "h1", "fri", "8", "9"⟩,
       ⟨5, "h1", "mon", "8", "9"⟩] }

/-- C7: `create_poll` counts distinct options (`set(options)`): any request
with more than 5 distinct values is rejected with the cap `ValueError`
before anything is read or written, while a request with 6 entries but
only 5 distinct values (duplicates collapsed) is accepted and creates the
poll. -/
theorem create_poll_caps_at_five :
  (∀ (db : DB) (hangout_id : String) (options : List String),
      5 < options.dedup.length →
      create_poll db hangout_id options =
        .error (.valueError "Options exceeds limit. You can only pass in 5 options")) ∧
    sixOptionsWithDup.length = 6 ∧
    sixOptionsWithDup.dedup.length = 5 ∧
    create_poll pollDB "h1" sixOptionsWithDup =
      .ok (pollDBAfter,
        some ⟨200, "Succesfully created poll and added your options."⟩) := by
  refine ⟨?_, by decide, by decide, by decide⟩
  intro db hangout_id options hlen
  simp [create_poll, hlen]

/-- Witness for C7's capped half: six pairwise-distinct options are
rejected. -/
theorem create_poll_caps_at_five_witness :
  5 < sixDistinctOptions.dedup.length ∧
    create_poll pollDB "h1" sixDistinctOptions =
      .error (.valueError "Options exceeds limit. You can only pass in 5 options") :=
  ⟨by decide, create_poll_caps_at_five.1 pollDB "h1" sixDistinctOptions (by decide)⟩

/-- Trivial geometry operations for pipeline runs that never reach the
geometry stage. -/
def trivialOps : GeomOps Unit :=
  { inter := fun _ _ => (), isEmpty := fun _ => true,
    enclosing := fun _ => ((0, 0), 0) }

/-- C3 fixture hangout: status `confirm-time`, not `determining-location`. -/
def hangoutC3 : HangoutRow :=
  { id := "h1", creator_id := "c", invitee_ids := ["u1"], title := "Games",
    status := "confirm-time" }

/-- C3 fixture environment: the hangout is in `confirm-time`. -/
def envC3 : AlgoEnv Unit :=
  { db :=
      { hangouts := [hangoutC3],
        hangout_participants :=
          [{ hangout_id := "h1", user_id := "u1", status := "accepted",
             flowStatus := some "submitted-confirm-time",
             start_address := "1 Main St", transport := "walking",
             travel_time := 30 }],
        meetup_options := [], meetup_votes := [] },
    geocode := fun _ => .batch [], isochrone := fun _ _ _ => .results [],
    ops := trivialOps }

/-- A second environment, identical except the hangout is in
`determining-location` and the geocoder fails: the reference point for the
caller-distinguishability comparison. -/
def envC3ext : AlgoEnv Unit :=
  { envC3 with
    db :=
      { envC3.db with
        hangouts := [{ hangoutC3 with status := "determining-location" }] },
    geocode := fun _ => .apiError "boom" }

/-- C3 counterexample: on a hangout outside `determining-location` the run
does fail, but the invalid-state `ValueError` is wrapped by the
catch-all `except Exception` into `UnexpectedError` — the very same
exception class the caller receives for an external-service failure
(`envC3ext`), so the two outcomes are not distinguishable by the class the
caller catches. -/
theorem getRecommendations_invalid_state_same_class_as_external :
  (getRecommendations envC3 "h1").1 =
      .error (.unexpectedError (.valueError
        "Hangout status must be determining-location not confirm-time")) ∧
    (getRecommendations envC3ext "h1").1 =
      .error (.unexpectedError (.externalAPIError "boom")) ∧
    raisedClass (.unexpectedError (.valueError
        "Hangout status must be determining-location not confirm-time")) =
      raisedClass (.unexpectedError (.externalAPIError "boom")) := by
  exact ⟨rfl, rfl, rfl⟩

/-- C3 (amended): for every hangout whose status is not
`determining-location`, `getRecommendations` fails — but with
`UnexpectedError` wrapping the invalid-state `ValueError`, issuing no
external call; only the null-id `InvalidHangout` check escapes the
catch-all wrapper, so the invalid-state outcome is not distinguishable
from the unexpected/external-service category. -/
theorem getRecommendations_invalid_state_raises_unexpected {G : Type}
    (env : AlgoEnv G) (hangout_id : String) (hrow : HangoutRow)
    (hne : hangout_id ≠ "")
    (hfind : get_hangout env.db hangout_id = some hrow)
    (hstat : hrow.status ≠ "determining-location") :
    getRecommendations env hangout_id =
      (.error (.unexpectedError (.valueError
        ("Hangout status must be determining-location not " ++ hrow.status))), []) := by
  simp [getRecommendations, hne, hfind, hstat]

/-- Witness for C3's amended statement at the concrete `envC3`. -/
theorem getRecommendations_invalid_state_raises_unexpected_witness :
  (("h1" : String) ≠ "") ∧
    get_hangout envC3.db "h1" = some hangoutC3 ∧
    hangoutC3.status ≠ "determining-location" ∧
    getRecommendations envC3 "h1" =
      (.error (.unexpectedError (.valueError
        ("Hangout status must be determining-location not " ++ hangoutC3.status))), []) :=
  ⟨by decide, by decide, by decide,
    getRecommendations_invalid_state_raises_unexpected envC3 "h1" hangoutC3
      (by decide) (by decide) (by decide)⟩

/-- If every batch entry carries a coordinate, `extractGeocodes` succeeds
and returns one point per entry. -/
theorem extractGeocodes_ok_of_isSome :
    ∀ (feats : List (Option QPoint)) (addrs : List String),
      (∀ f ∈ feats, f.isSome) →
      ∃ pts, extractGeocodes addrs feats = .ok pts ∧ pts.length = feats.length := by
  intro feats
  induction feats with
  | nil => exact fun addrs _ => ⟨[], rfl, rfl⟩
  | cons f fs ih =>
    intro addrs hall
    obtain ⟨pt, hpt⟩ := Option.isSome_iff_exists.mp (hall f (List.mem_cons_self f fs))
    obtain ⟨pts, hok, hlen⟩ :=
      ih addrs.tail (fun g hg => hall g (List.mem_cons_of_mem f hg))
    subst hpt
    exact ⟨pt :: pts, by simp [extractGeocodes, hok], by simp [hlen]⟩

/-- C6 (amended): on a `determining-location` hangout with at least one
accepted participant, a travel-time budget above 180 minutes makes the run
fail with the cap `ValueError` (wrapped into `UnexpectedError`) before the
isochrone or venue call is issued — but after the geocoder batch call has
already been made: the cap is checked inside `getIsochrones`, which
`getRecommendations` reaches only after `getGeocodes` has posted to the
geocoder. -/
theorem getRecommendations_travel_cap_only_after_geocoder {G : Type}
    (env : AlgoEnv G) (hangout_id : String) (hrow : HangoutRow)
    (parts : List ParticipantRow) (feats : List (Option QPoint))
    (hne : hangout_id ≠ "")
    (hfind : get_hangout env.db hangout_id = some hrow)
    (hstat : hrow.status = "determining-location")
    (hparts : env.db.hangout_participants.filter
        (fun p => p.hangout_id = hangout_id ∧ p.status = "accepted") = parts)
    (hpne : parts ≠ [])
    (hgeo : env.geocode (parts.map (fun p => p.start_address)) = .batch feats)
    (hflen : feats.length = parts.length)
    (hsome : ∀ f ∈ feats, f.isSome)
    (hcap : (parts.map (fun p => p.travel_time)).any (fun t => 180 < t) = true) :
    getRecommendations env hangout_id =
      (.error (.unexpectedError (.valueError
        "Travel time must be less than 3 hours (180 minutes)")), [.geocoderCall]) := by
  have hga : getAlgoInputs env.db hangout_id =
      (parts.map (fun p => p.start_address), parts.map (fun p => p.travel_time),
       parts.map (fun p => p.transport)) := by
    simp only [getAlgoInputs]
    rw [hparts]
  obtain ⟨pts, hok, hplen⟩ :=
    extractGeocodes_ok_of_isSome feats (parts.map (fun p => p.start_address)) hsome
  have hG : getGeocodes env (parts.map (fun p => p.start_address)) =
      (.ok pts, [.geocoderCall]) := by
    simp [getGeocodes, hgeo, hok, hpne]
  have hI : getIsochrones env pts (parts.map (fun p => p.travel_time))
      (parts.map (fun p => p.transport)) =
      (.error (.valueError "Travel time must be less than 3 hours (180 minutes)"), []) := by
    simp [getIsochrones, hplen, hflen, hcap]
  simp [getRecommendations, hne, hfind, hstat, hga, hG, hI]

/-- C6 fixture: a `determining-location` hangout whose participant `u1`
submitted a 181-minute travel budget; the geocoder resolves both
addresses. -/
def envC6 : AlgoEnv Unit :=
  { db :=
      { hangouts :=
          [{ id := "h1", creator_id := "c", invitee_ids := ["u1"],
             title := "Trip", status := "determining-location" }],
        hangout_participants :=
          [{ hangout_id := "h1", user_id := "c", status := "accepted",
             flowStatus := some "submitted-confirm-time",
             start_address := "1 Main St", transport := "walking",
             travel_time := 60 },
           { hangout_id := "h1", user_id := "u1", status := "accepted",
             flowStatus := some "submitted-confirm-time",
             start_address := "2 Oak Ave", transport := "driving",
             travel_time := 181 }],
        meetup_options := [], meetup_votes := [] },
    geocode := fun _ => .batch [some (0, 0), some (1, 1)],
    isochrone := fun _ _ _ => .results [], ops := trivialOps }

/-- The participant rows of `envC6`'s hangout, as the filter returns them. -/
def partsC6 : List ParticipantRow :=
  [{ hangout_id := "h1", user_id := "c", status := "accepted",
     flowStatus := some "submitted-confirm-time",
     start_address := "1 Main St", transport := "walking", travel_time := 60 },
   { hangout_id := "h1", user_id := "u1", status := "accepted",
     flowStatus := some "submitted-confirm-time",
     start_address := "2 Oak Ave", transport := "driving", travel_time := 181 }]

/-- Witness for C6's amended statement at the concrete `envC6`. -/
theorem getRecommendations_travel_cap_only_after_geocoder_witness :
  (("h1" : String) ≠ "") ∧
    envC6.db.hangout_participants.filter
      (fun p => p.hangout_id = "h1" ∧ p.status = "accepted") = partsC6 ∧
    (partsC6.map (fun p => p.travel_time)).any (fun t => 180 < t) = true ∧
    getRecommendations envC6 "h1" =
      (.error (.unexpectedError (.valueError
        "Travel time must be less than 3 hours (180 minutes)")), [.geocoderCall]) :=
  ⟨by decide, by decide, by decide,
    getRecommendations_travel_cap_only_after_geocoder envC6 "h1"
      { id := "h1", creator_id := "c", invitee_ids := ["u1"],
        title := "Trip", status := "determining-location" }
      partsC6 [some (0, 0), some (1, 1)]
      (by decide) (by decide) (by decide) (by decide) (by decide)
      (by decide) (by decide) (by decide) (by decide)⟩

/-- C6 counterexample: on `envC6` the 181-minute run fails with the cap
`ValueError` as claimed, but the call trace at that point is
`[geocoderCall]`, not empty — the validation error is *not* raised before
every external service call: the geocoder batch request has already been
issued. -/
theorem getRecommendations_travel_cap_geocoder_already_called :
  getRecommendations envC6 "h1" =
      (.error (.unexpectedError (.valueError
        "Travel time must be less than 3 hours (180 minutes)")), [.geocoderCall]) ∧
    (getRecommendations envC6 "h1").2 ≠ [] := by
  exact ⟨rfl, by decide⟩

/-- Every member of a rational list is bounded by the `0`-seeded max fold. -/
theorem le_foldr_max (x : ℚ) : ∀ l : List ℚ, x ∈ l → x ≤ l.foldr max 0 := by
  intro l hx
  induction l with
  | nil => cases hx
  | cons a t ih =>
    rcases List.mem_cons.mp hx with h | h
    · subst h; exact le_max_left _ _
    · exact le_trans (ih h) (le_max_right _ _)

/-- C8 (amended): the circle returned by `getEnclosingCircle` encloses
every exterior vertex of the *representative* polygon — the input itself
for a `Polygon`, the largest-area sub-polygon for a `MultiPolygon`: the
geodesic distance from the center to each such vertex (at the fixed 111320
meters-per-degree factor) is at most the radius.  Vertices of the other
sub-polygons of a multi-polygon carry no such guarantee (see the
counterexample). -/
theorem getEnclosingCircle_encloses_representative (g : SGeometry)
    (p : SPolygon) (c : QPoint) (dsq : ℚ) (v : QPoint)
    (hrep : representativePolygon g = some p)
    (henc : getEnclosingCircle g = some (c, dsq))
    (hv : v ∈ p.exterior) :
    Real.sqrt (distSq c v : ℝ) * 111320 ≤ Real.sqrt (dsq : ℝ) * 111320 := by
  have hnil : p.exterior ≠ [] := List.ne_nil_of_mem hv
  have hempty : p.exterior.isEmpty = false := by
    cases hpe : p.exterior with
    | nil => exact absurd hpe hnil
    | cons a t => rfl
  have heval : getEnclosingCircle g =
      some (polyCentroid p, maxDistSq (polyCentroid p) p.exterior) := by
    unfold getEnclosingCircle
    rw [hrep]
    simp [hempty]
  rw [heval] at henc
  have hpair := Option.some.inj henc
  rw [Prod.mk.injEq] at hpair
  obtain ⟨hc, hd⟩ := hpair
  subst hc
  subst hd
  have hmem : distSq (polyCentroid p) v ∈
      p.exterior.map (fun w => distSq (polyCentroid p) w) :=
    List.mem_map_of_mem _ hv
  have hle : distSq (polyCentroid p) v ≤ maxDistSq (polyCentroid p) p.exterior :=
    le_foldr_max _ _ hmem
  have hle2 : ((distSq (polyCentroid p) v : ℚ) : ℝ) ≤
      ((maxDistSq (polyCentroid p) p.exterior : ℚ) : ℝ) := by
    exact_mod_cast hle
  exact mul_le_mul_of_nonneg_right (Real.sqrt_le_sqrt hle2) (by norm_num)

/-- The unit-scale square `[(0,0), (2,0), (2,2), (0,2)]` (closed ring),
area 4, centroid `(1,1)`. -/
def squarePoly : SPolygon :=
  ⟨[(0, 0), (2, 0), (2, 2), (0, 2), (0, 0)]⟩

/-- Witness for C8's amended statement: on the square, the circle encloses
the vertex `(2, 0)`. -/
theorem getEnclosingCircle_encloses_representative_witness :
  representativePolygon (.polygon squarePoly) = some squarePoly ∧
    getEnclosingCircle (.polygon squarePoly) = some ((1, 1), 2) ∧
    ((2 : ℚ), (0 : ℚ)) ∈ squarePoly.exterior ∧
    Real.sqrt (distSq (1, 1) (2, 0) : ℝ) * 111320 ≤
      Real.sqrt ((2 : ℚ) : ℝ) * 111320 :=
  ⟨rfl,
    by norm_num [getEnclosingCircle, representativePolygon, squarePoly,
      polyCentroid, polyCentroid.centroidSum, shoelace2, maxDistSq, distSq,
      max_def, Prod.ext_iff],
    by simp [squarePoly],
    getEnclosingCircle_encloses_representative (.polygon squarePoly) squarePoly
      (1, 1) 2 (2, 0) rfl
      (by norm_num [getEnclosingCircle, representativePolygon, squarePoly,
        polyCentroid, polyCentroid.centroidSum, shoelace2, maxDistSq, distSq,
        max_def, Prod.ext_iff])
      (by simp [squarePoly])⟩

/-- A far-away unit square, area 1. -/
def farPoly : SPolygon :=
  ⟨[(1000, 0), (1001, 0), (1001, 1), (1000, 1), (1000, 0)]⟩

/-- A multi-polygon whose largest sub-polygon is `squarePoly` and which
also contains the distant `farPoly`. -/
def multiFar : SGeometry := .multiPolygon [squarePoly, farPoly]

/-- C8 counterexample: on the multi-polygon `multiFar`,
`getEnclosingCircle` measures only the largest-area sub-polygon (the
square at the origin, radius `√2 · 111320`), while the source geometry
also has the vertex `(1000, 0)` — whose distance from the center
`(1, 1)` is `√998002 · 111320`, strictly greater than the radius.  The
claim's "distance from the center to every vertex of the source polygon is
at most the radius" therefore fails for multi-polygon inputs. -/
theorem getEnclosingCircle_misses_far_vertex :
  getEnclosingCircle multiFar = some ((1, 1), 2) ∧
    ((1000 : ℚ), (0 : ℚ)) ∈ geometryVertices multiFar ∧
    Real.sqrt ((2 : ℚ) : ℝ) * 111320 <
      Real.sqrt (distSq (1, 1) (1000, 0) : ℝ) * 111320 := by
  refine ⟨?_, by simp [geometryVertices, multiFar, squarePoly, farPoly], ?_⟩
  · norm_num [getEnclosingCircle, representativePolygon, multiFar, largestGeom,
      polyArea, squarePoly, farPoly, polyCentroid, polyCentroid.centroidSum,
      shoelace2, maxDistSq, distSq, max_def, Prod.ext_iff]
  have hval : distSq (1, 1) (1000, 0) = 998002 := by norm_num [distSq]
  rw [hval]
  have hlt : ((2 : ℚ) : ℝ) < ((998002 : ℚ) : ℝ) := by norm_num
  exact mul_lt_mul_of_pos_right
    (Real.sqrt_lt_sqrt (by norm_num) hlt) (by norm_num)

/-- Membership in the fold of pairwise intersections is membership in every
region of the (cons-ed) list. -/
theorem mem_getOverlap_fold (q : QPoint) :
    ∀ (t : List Region) (a : Region),
      q ∈ t.foldl (fun x y => x ∩ y) a ↔ ∀ s ∈ a :: t, q ∈ s := by
  intro t
  induction t with
  | nil => intro a; simp
  | cons b t ih =>
    intro a
    rw [List.foldl_cons, ih (a ∩ b)]
    constructor
    · intro h s hs
      rcases List.mem_cons.mp hs with h1 | h1
      · rw [h1]
        exact (h (a ∩ b) (List.mem_cons_self _ _)).1
      · rcases List.mem_cons.mp h1 with h2 | h2
        · rw [h2]
          exact (h (a ∩ b) (List.mem_cons_self _ _)).2
        · exact h s (List.mem_cons_of_mem _ h2)
    · intro h s hs
      rcases List.mem_cons.mp hs with h1 | h1
      · subst h1
        exact ⟨h a (by simp), h b (by simp)⟩
      · exact h s (by simp [h1])

/-- C9: the result of `getOverlap` (at the point-set semantics of regions)
is invariant under permutation of the input list — pairwise intersection
is commutative, associative and idempotent, so any order folds to the
intersection of all members. -/
theorem getOverlapRegion_perm_invariant (l1 l2 : List Region)
    (hp : l1.Perm l2) : getOverlapRegion l1 = getOverlapRegion l2 := by
  cases l1 with
  | nil => rw [hp.symm.eq_nil]
  | cons a t =>
    cases l2 with
    | nil => exact absurd hp.eq_nil (List.cons_ne_nil a t)
    | cons b s =>
      simp only [getOverlapRegion, getOverlap]
      apply congrArg some
      ext q
      rw [mem_getOverlap_fold q t a, mem_getOverlap_fold q s b]
      exact ⟨fun h r hr => h r (hp.mem_iff.mpr hr),
        fun h r hr => h r (hp.mem_iff.mp hr)⟩

/-- The half-plane `x ≤ 3`. -/
def regionA : Region := { q | q.1 ≤ 3 }

/-- The half-plane `0 ≤ x`. -/
def regionB : Region := { q | 0 ≤ q.1 }

/-- The half-plane `y ≤ 5`. -/
def regionC : Region := { q | q.2 ≤ 5 }

/-- Witness for C9 at three concrete regions: the spec's own example
`intersectAll([A,B,C]) == intersectAll([C,A,B])`. -/
theorem getOverlapRegion_perm_invariant_witness :
  getOverlapRegion [regionA, regionB, regionC] =
    getOverlapRegion [regionC, regionA, regionB] :=
  getOverlapRegion_perm_invariant _ _
    ((List.Perm.cons regionA (List.Perm.swap regionC regionB [])).trans
      (List.Perm.swap regionC regionA [regionB]))
